import Mathlib

/-!
# AntiSubscribeProtect — DNS-policy resolver, shallow embedding

Shallow embedding of `src/board/aladdinnet.py` (class `AladdinNetwork`):
the DNS server-spec parser, the multi-protocol resolver with its
process-wide `(server, domain)` cache (`resolve_ipv4`), the Clash
wildcard-to-glob pattern translation, and the policy-matching
substitution driver (`replace_pxydom_ip`).

Modelling conventions:
* The network is an oracle `net : Query → Option (List String)`: `some ips`
  is a DNS response whose answer-section A records are `ips` (in response
  order), `none` is any transport-level failure (timeout, refusal,
  malformed response).  Issued queries are recorded in `ResolveState.log`
  so that "no network call happens" is expressible.
* Every `raise ValueError` site of `resolve_ipv4` becomes a distinct
  `RErr` value; the Python message strings are elided, but each
  constructor carries the same context (domain, server spec) the source
  message interpolates.  `urllib.parse`'s `.port` `ValueError` is also a
  `ValueError` in the source and is mapped to `RErr.invalidSpec`.
* `urllib.parse.urlparse` and Python's `int()` are external stdlib
  collaborators; they are modelled faithfully for the inputs this program
  feeds them, restricted to netlocs without userinfo (`user@host`) or
  bracketed IPv6 hosts, and to `int()` without underscore digit
  separators.  `str.lower` is modelled as ASCII lowering.
* `fnmatch.fnmatch` on POSIX (where `os.path.normcase` is the identity)
  is a case-sensitive whole-string glob match; `*` and `?` are modelled,
  `[...]` character classes are not (no claim exercises them).
* YAML scalar proxy-field values are modelled by `YVal`
  (string/int/bool/null); Python truthiness on these is `falsyV`.
  Proxy records are association lists (real YAML mappings have unique
  keys); `dict.get` is first-key lookup, assignment replaces in place.
-/

namespace AntiSubscribeProtect

/-- A network query as dispatched by the `proto` branch of
`resolve_ipv4` (src/board/aladdinnet.py lines 83-96): `udp`/`tcp`/`quic`
carry host and port, `tls` carries host and the port expression
`port or 853`, `https` carries the full normalized server string used as
the DoH URL. In every case the queried domain is recorded. -/
inductive Query where
  | udp (host : String) (port : Int) (domain : String)
  | tcp (host : String) (port : Int) (domain : String)
  | tls (host : String) (port : Int) (domain : String)
  | https (url : String) (domain : String)
  | quic (host : String) (port : Int) (domain : String)
deriving DecidableEq, Repr

/-- Errors raised (all as `ValueError`) by `resolve_ipv4`.
`invalidSpec r` covers the pre-dispatch raises: `r` is `"rcode"`
(line 47), `"system/dhcp"` (line 52), `"port"` (line 65), `"url-port"`
(the `parsed.port` raise inside line 74), `"host"` (line 77).
`queryFailed dom srv r` is the wrap-and-reraise at lines 116-121 with
`r` one of `"unknown-proto"` (line 98), `"transport"`, `"no-a-records"`
(line 108). -/
inductive RErr where
  | invalidSpec (reason : String)
  | queryFailed (domain : String) (server : String) (reason : String)
deriving DecidableEq, Repr

/-- The mutable state threaded through resolutions: the class-level
`dns_cache` (keyed by the normalized spec and the domain), plus a log of
the network queries issued, so claims can count network calls. -/
structure ResolveState where
  cache : List ((String × String) × List String)
  log : List Query
deriving DecidableEq, Repr

/-- First-match association-list lookup (Python `dict` membership /
indexing on the cache key tuple). -/
def lookupCache : List ((String × String) × List String) → String × String → Option (List String)
  | [], _ => none
  | (k, v) :: rest, key => if key = k then some v else lookupCache rest key

/-- The whitespace characters Python's `str.strip` removes (the ASCII
ones; exotic unicode whitespace is not modelled). -/
def wsChar (c : Char) : Bool :=
  c = ' ' || c = '\t' || c = '\n' || c = '\r' || c = '\x0b' || c = '\x0c'

/-- Python `s.strip()`. -/
def pyStrip (s : String) : String :=
  String.mk (((s.data.dropWhile wsChar).reverse.dropWhile wsChar).reverse)

/-- Python `s.lower()` (ASCII lowering). -/
def pyLower (s : String) : String := String.mk (s.data.map Char.toLower)

/-- Python `s.startswith(pre)`. -/
def pyStartsWith (s pre : String) : Bool := pre.data.isPrefixOf s.data

/-- `dns_server.strip().lower()` (line 39). -/
def normalizeSpec (s : String) : String := pyLower (pyStrip s)

/-- Index of the first occurrence of `sep` in a character list. -/
def findSubIdx (sep : List Char) : List Char → Option Nat
  | [] => if sep.isEmpty then some 0 else none
  | c :: s' =>
    if sep.isPrefixOf (c :: s') then some 0
    else (findSubIdx sep s').map (· + 1)

/-- Python `sub in s` for a substring test (used for `"://" not in dns_server`). -/
def containsStr (s sub : String) : Bool := (findSubIdx sub.data s.data).isSome

/-- Python `s.split(sep, 1)`: the part before the first occurrence of
`sep` and the remainder (the whole string and `none` when absent). -/
def splitOnce (s sep : String) : String × Option String :=
  match findSubIdx sep.data s.data with
  | none => (s, none)
  | some i => (String.mk (s.data.take i), some (String.mk (s.data.drop (i + sep.data.length))))

/-- Decimal digits to a number, `none` on a non-digit or the empty
string. -/
def digitsToNat (cs : List Char) : Option Nat :=
  if cs.isEmpty then none
  else if cs.all Char.isDigit then some (cs.foldl (fun n c => n * 10 + (c.toNat - 48)) 0)
  else none

/-- Python `int(t)` on a decimal string: optional surrounding whitespace,
optional single sign, then digits (underscore separators not modelled). -/
def parsePyInt (s : String) : Option Int :=
  if pyStartsWith (pyStrip s) "-" then
    (digitsToNat ((pyStrip s).data.drop 1)).map (fun n => -(n : Int))
  else if pyStartsWith (pyStrip s) "+" then
    (digitsToNat ((pyStrip s).data.drop 1)).map (fun n => (n : Int))
  else (digitsToNat (pyStrip s).data).map (fun n => (n : Int))

/-- `urllib.parse`: a URL scheme is `[a-z][a-z0-9+.-]*` (input is already
lower-cased). -/
def validScheme (s : String) : Bool :=
  match s.data with
  | [] => false
  | c :: rest => c.isAlpha && rest.all (fun d => d.isAlphanum || d = '+' || d = '-' || d = '.')

/-- Characters ending the netloc component of a URL. -/
def netlocEnd (c : Char) : Bool := c = '/' || c = '?' || c = '#'

/-- Modelled from `urllib.parse.urlparse` (no userinfo, no IPv6
brackets): returns `(scheme, hostname, port-string?)`. The scheme splits
at the first `:` when the prefix is a valid scheme; the netloc is taken
only when the remainder starts with `//`; `hostname` is the netloc up to
the first `:` (empty string models Python's `None`), the port string is
what follows (absent when missing or empty, exactly `_hostinfo`). -/
def pyUrlparse (s : String) : String × String × Option String :=
  let (pre, rest?) := splitOnce s ":"
  let (scheme, rem) :=
    match rest? with
    | none => ("", s)
    | some rest => if validScheme pre then (pre, rest) else ("", s)
  let netloc :=
    if pyStartsWith rem "//" then String.mk ((rem.data.drop 2).takeWhile (fun c => !netlocEnd c))
    else ""
  let (host, port?) := splitOnce netloc ":"
  let portStr? := match port? with
    | none => none
    | some p => if p = "" then none else some p
  (scheme, host, portStr?)

/-- The spec-parsing portion of `resolve_ipv4` (lines 56-77): from the
normalized server string to `(proto, host, port)`, or the `ValueError`
it raises.  The no-`://` branch is implicit UDP with `host:port`
splitting at the first `:` (port via Python `int`); the `://` branch is
`urlparse` with `port = parsed.port or 53` (so an explicit port `0` also
yields 53, and `parsed.port` raises on a non-integer or out-of-range
port). The empty-host check of line 76 is included here. -/
def parseSpec (s : String) : Except RErr (String × String × Int) :=
  if !containsStr s "://" then
    if containsStr s ":" then
      match splitOnce s ":" with
      | (h, some portStr) =>
        let host := pyStrip h
        match parsePyInt portStr with
        | none => .error (.invalidSpec "port")
        | some port =>
          if host = "" then .error (.invalidSpec "host") else .ok ("udp", host, port)
      | (_, none) => .error (.invalidSpec "port")
    else
      if s = "" then .error (.invalidSpec "host") else .ok ("udp", s, 53)
  else
    let (scheme, host, portStr?) := pyUrlparse s
    match portStr? with
    | none =>
      if host = "" then .error (.invalidSpec "host") else .ok (scheme, host, 53)
    | some portStr =>
      match parsePyInt portStr with
      | none => .error (.invalidSpec "url-port")
      | some p =>
        if 0 ≤ p ∧ p ≤ 65535 then
          let port : Int := if p = 0 then 53 else p
          if host = "" then .error (.invalidSpec "host") else .ok (scheme, host, port)
        else .error (.invalidSpec "url-port")

/-- The transport dispatch of lines 83-98: builds the query each branch
issues (`tls` uses `port or 853`, `https` uses the full normalized
server string), or the unknown-protocol `ValueError` of line 98 — which
is raised inside the `try` and therefore surfaces wrapped as a
`queryFailed`. -/
def mkQuery (proto host : String) (port : Int) (raw dom : String) : Except RErr Query :=
  if proto = "udp" then .ok (.udp host port dom)
  else if proto = "tcp" then .ok (.tcp host port dom)
  else if proto = "tls" then .ok (.tls host (if port = 0 then 853 else port) dom)
  else if proto = "https" then .ok (.https raw dom)
  else if proto = "quic" then .ok (.quic host port dom)
  else .error (.queryFailed dom raw "unknown-proto")

/-- The cache-miss path of `resolve_ipv4` on the already-normalized
spec `s` (lines 46-121): special-type rejections, spec parsing, host
check, dispatch, answer extraction, empty-answer rejection, and the
write-through to the cache on success.  A query is appended to the log
exactly when a `dns.query.*` call happens. -/
def resolveFresh (net : Query → Option (List String)) (st : ResolveState)
    (s dom : String) : Except RErr (List String) × ResolveState :=
  if pyStartsWith s "rcode://" then (.error (.invalidSpec "rcode"), st)
  else if pyStartsWith s "system://" || s == "system" || pyStartsWith s "dhcp://" then
    (.error (.invalidSpec "system/dhcp"), st)
  else
    match parseSpec s with
    | .error e => (.error e, st)
    | .ok (proto, host, port) =>
      match mkQuery proto host port s dom with
      | .error e => (.error e, st)
      | .ok q =>
        match net q with
        | none => (.error (.queryFailed dom s "transport"), ⟨st.cache, st.log ++ [q]⟩)
        | some ips =>
          match ips with
          | [] => (.error (.queryFailed dom s "no-a-records"), ⟨st.cache, st.log ++ [q]⟩)
          | _ :: _ => (.ok ips, ⟨st.cache ++ [((s, dom), ips)], st.log ++ [q]⟩)

/-- `AladdinNetwork.resolve_ipv4` (lines 28-121): normalize the server
string, consult the cache first (before any validation), and otherwise
run the fresh-resolution path. -/
def resolve_ipv4 (net : Query → Option (List String)) (st : ResolveState)
    (dns_server query_domain : String) : Except RErr (List String) × ResolveState :=
  match lookupCache st.cache (normalizeSpec dns_server, query_domain) with
  | some ips => (.ok ips, st)
  | none => resolveFresh net st (normalizeSpec dns_server) query_domain

/-- `fnmatch` glob matching over character lists (pattern first):
`*` matches any run of characters including the empty one, `?` exactly
one character, anything else is literal; the whole string must match
(Python's translation anchors with a `\Z`).  POSIX `normcase` is the
identity, so matching is case-sensitive; `[...]` classes are not
modelled. -/
def globMatch : List Char → List Char → Bool
  | [], s => s.isEmpty
  | '*' :: p, s => (List.range (s.length + 1)).any fun i => globMatch p (s.drop i)
  | '?' :: p, s =>
    match s with
    | [] => false
    | _ :: s' => globMatch p s'
  | a :: p, s =>
    match s with
    | [] => false
    | c :: s' => (a == c) && globMatch p s'

/-- `fnmatch.fnmatch(name, pat)` on POSIX. -/
def fnmatch (name pat : String) : Bool := globMatch pat.data name.data

/-- The pattern translation of lines 166-172: a pattern starting with
`+.` or `.` drops its first character and gains a leading `*`
(`+.baidu.com` → `*.baidu.com`, `.baidu.com` → `*baidu.com`); a pattern
starting with `*`, and any other pattern, is used verbatim. -/
def translatePattern (pattern : String) : String :=
  if pyStartsWith pattern "+." || pyStartsWith pattern "." then "*" ++ pattern.drop 1
  else pattern

/-- The matching loop of lines 160-176: iterate the policy entries in
order, return the server spec of the first entry whose translated
pattern glob-matches the hostname (`break` on first hit), `none` when no
entry matches. -/
def findMatch : List (String × String) → String → Option String
  | [], _ => none
  | (pattern, dnsServer) :: rest, server =>
    if fnmatch server (translatePattern pattern) then some dnsServer
    else findMatch rest server

/-- YAML scalar values a proxy field can hold (the subset needed to
express Python truthiness of `proxy.get("server")`). -/
inductive YVal where
  | str (s : String)
  | int (n : Int)
  | bool (b : Bool)
  | null
deriving DecidableEq, Repr

/-- Python falsiness on the modelled scalars (`not server_name`,
line 156): empty string, zero, `False`, `None`. -/
def falsyV : YVal → Bool
  | .str s => s == ""
  | .int n => n == 0
  | .bool b => !b
  | .null => true

/-- A proxy entry: a YAML mapping, modelled as an association list
(keys of a real mapping are unique). -/
abbrev Proxy := List (String × YVal)

/-- Python `proxy.get(k)`: first-key lookup, `none` when absent. -/
def getField : Proxy → String → Option YVal
  | [], _ => none
  | (k', v) :: rest, k => if k' = k then some v else getField rest k

/-- Python `proxy[k] = v` on a mapping: replace the value at the
existing key in place (appends when absent, which a real dict also
does). -/
def setField : Proxy → String → YVal → Proxy
  | [], k, v => [(k, v)]
  | (k', v') :: rest, k, v =>
    if k' = k then (k, v) :: rest else (k', v') :: setField rest k v

/-- Driver-level failures of `replace_pxydom_ip`.  `missingPolicy` and
`missingProxies` are the `APIErrorException(code=500, ...)` raises of
lines 139-143 and 148-152; `replaceFailed e` is the line 188-192 wrap of
the resolver's `ValueError` into `APIErrorException(code=500, ...)`;
`typeError` models the uncaught `TypeError` Python would raise when
`fnmatch` receives a truthy non-string `server` value (no handler
catches it in the source). -/
inductive PErr where
  | missingPolicy
  | missingProxies
  | replaceFailed (e : RErr)
  | typeError
deriving DecidableEq, Repr

/-- The per-proxy body of the loop at lines 154-198: skip on a missing
or falsy `server`; find the first matching policy entry; skip when none
matched — `if not matched_dns` (line 178) also skips a matched but
falsy (empty-string) server spec; resolve, turning a resolver
`ValueError` into the fatal wrapped error; on success replace the
`server` field with the first address (the empty-list skip of line 194
is kept although `resolve_ipv4` never returns an empty list). -/
def stepProxy (net : Query → Option (List String)) (policy : List (String × String))
    (st : ResolveState) (p : Proxy) : Except PErr Proxy × ResolveState :=
  match getField p "server" with
  | none => (.ok p, st)
  | some v =>
    if falsyV v then (.ok p, st)
    else
      match v with
      | .str serverName =>
        match findMatch policy serverName with
        | none => (.ok p, st)
        | some matchedDns =>
          if matchedDns = "" then (.ok p, st)
          else
            match resolve_ipv4 net st matchedDns serverName with
            | (.error e, st₁) => (.error (.replaceFailed e), st₁)
            | (.ok ips, st₁) =>
              match ips with
              | [] => (.ok p, st₁)
              | ip :: _ => (.ok (setField p "server" (.str ip)), st₁)
      | _ => (.error .typeError, st)

/-- The `for proxy in data["proxies"]` loop: sequential, threading the
cache state, aborting the remainder as soon as one step raises. -/
def processProxies (net : Query → Option (List String)) (policy : List (String × String)) :
    ResolveState → List Proxy → Except PErr (List Proxy) × ResolveState
  | st, [] => (.ok [], st)
  | st, p :: rest =>
    match stepProxy net policy st p with
    | (.error e, st₁) => (.error e, st₁)
    | (.ok p', st₁) =>
      match processProxies net policy st₁ rest with
      | (.ok ps, st₂) => (.ok (p' :: ps), st₂)
      | (.error e, st₂) => (.error e, st₂)

/-- The already-decoded subscription document, as `replace_pxydom_ip`
inspects it: whether the top-level `dns` mapping exists, its
`nameserver-policy` (an ordered pattern → server-spec mapping, `none`
when the key is absent), and the `proxies` value (`none` when the key is
absent or its value is not a list). -/
structure Doc where
  dnsPresent : Bool
  nsPolicy : Option (List (String × String))
  proxies : Option (List Proxy)
deriving DecidableEq, Repr

/-- `AladdinNetwork.replace_pxydom_ip` (lines 123-200) after YAML
decoding: the two document-shape checks in source order, then the proxy
loop; on success the document is returned with its proxies replaced. -/
def replace_pxydom_ip (net : Query → Option (List String)) (st : ResolveState)
    (doc : Doc) : Except PErr Doc × ResolveState :=
  if !doc.dnsPresent || doc.nsPolicy.isNone then (.error .missingPolicy, st)
  else
    match doc.nsPolicy with
    | none => (.error .missingPolicy, st)
    | some policy =>
      match doc.proxies with
      | none => (.error .missingProxies, st)
      | some proxies =>
        match processProxies net policy st proxies with
        | (.ok ps, st') => (.ok { doc with proxies := some ps }, st')
        | (.error e, st') => (.error e, st')

/-- Resolver states reachable in a process: the class-level cache starts
empty, and every mutation goes through a `resolve_ipv4` call (the driver
only ever touches the state through the resolver). -/
inductive Reachable : ResolveState → Prop where
  | init : Reachable ⟨[], []⟩
  | step (net : Query → Option (List String)) (st : ResolveState) (spec dom : String) :
      Reachable st → Reachable (resolve_ipv4 net st spec dom).2

/-- The spec strings rejected before any parsing (lines 46-54). -/
def specialSpec (s : String) : Bool :=
  pyStartsWith s "rcode://" || pyStartsWith s "system://" || s == "system" ||
    pyStartsWith s "dhcp://"

/-- Caches whose every key holds a server spec that passed the
special-type checks; an invariant of every reachable resolver state
(nothing is ever cached for a rcode/system/dhcp spec). -/
def GoodCache (c : List ((String × String) × List String)) : Prop :=
  ∀ k v, lookupCache c k = some v → specialSpec k.1 = false

/-! ### Concrete fixtures used by witnesses and counterexamples -/

/-- Oracle: every query fails at the transport level. -/
def netFail : Query → Option (List String) := fun _ => none

/-- Oracle: every query succeeds with an empty answer section. -/
def netEmptyAns : Query → Option (List String) := fun _ => some []

/-- Oracle: every query answers with the single A record `10.0.0.5`. -/
def netOne : Query → Option (List String) := fun _ => some ["10.0.0.5"]

/-- The initial resolver state: empty cache, no queries issued. -/
def st0 : ResolveState := ⟨[], []⟩

/-- A sample policy: `.example.com` resolved through `udp://9.9.9.9`. -/
def policyEx : List (String × String) := [(".example.com", "udp://9.9.9.9")]

/-- A sample proxy entry. -/
def proxyNode : Proxy := [("server", .str "node.example.com"), ("type", .str "ss")]

/-- A second sample proxy entry (for batches). -/
def proxyOther : Proxy := [("server", .str "other.net")]

/-- A proxy entry whose `server` value is the empty string. -/
def proxyEmptyServer : Proxy := [("server", .str ""), ("type", .str "ss")]

/-- A proxy entry with no `server` field. -/
def proxyNoServer : Proxy := [("name", .str "x")]

/-- The state after `resolve_ipv4 netOne st0 "udp://9.9.9.9"
"node.example.com"`: one UDP query issued, its answer cached. -/
def stAfterNode : ResolveState :=
  ⟨[(("udp://9.9.9.9", "node.example.com"), ["10.0.0.5"])],
   [.udp "9.9.9.9" 53 "node.example.com"]⟩

/-- The state after `resolve_ipv4 netOne st0 "8.8.8.8" "d"`. -/
def stAfter888 : ResolveState :=
  ⟨[(("8.8.8.8", "d"), ["10.0.0.5"])], [.udp "8.8.8.8" 53 "d"]⟩

/-! ### Helper lemmas -/

theorem lookupCache_append_self (c : List ((String × String) × List String))
    (k : String × String) (v : List String) (h : lookupCache c k = none) :
    lookupCache (c ++ [(k, v)]) k = some v := by
  induction c with
  | nil => simp [lookupCache]
  | cons kv rest ih =>
    obtain ⟨k', v'⟩ := kv
    by_cases hk : k = k'
    · simp [lookupCache, hk] at h
    · simp only [lookupCache, List.cons_append, if_neg hk] at h ⊢
      exact ih h

theorem lookupCache_append_elim (c : List ((String × String) × List String))
    (k₀ : String × String) (v₀ : List String) (k : String × String) (v : List String)
    (h : lookupCache (c ++ [(k₀, v₀)]) k = some v) :
    lookupCache c k = some v ∨ k = k₀ := by
  induction c with
  | nil =>
    simp only [List.nil_append, lookupCache] at h
    by_cases hk : k = k₀
    · exact Or.inr hk
    · simp [if_neg hk, lookupCache] at h
  | cons kv rest ih =>
    obtain ⟨k', v'⟩ := kv
    by_cases hk : k = k'
    · simp only [lookupCache, List.cons_append, if_pos hk] at h ⊢
      exact Or.inl h
    · simp only [lookupCache, List.cons_append, if_neg hk] at h ⊢
      exact ih h

theorem resolveFresh_ok_state (net : Query → Option (List String)) (st : ResolveState)
    (s dom : String) (l : List String) (st₁ : ResolveState)
    (h : resolveFresh net st s dom = (.ok l, st₁)) :
    st₁.cache = st.cache ++ [((s, dom), l)] ∧ ∃ q, st₁.log = st.log ++ [q] := by
  unfold resolveFresh at h
  split at h
  · simp at h
  split at h
  · simp at h
  split at h
  · simp at h
  split at h
  · simp at h
  split at h
  · simp at h
  split at h
  · simp at h
  · obtain ⟨hl, hst⟩ := Prod.mk.injEq .. ▸ h
    obtain rfl : _ = l := by simpa using hl
    subst hst
    exact ⟨rfl, _, rfl⟩

theorem resolveFresh_error_cache (net : Query → Option (List String)) (st : ResolveState)
    (s dom : String) (e : RErr) (st₁ : ResolveState)
    (h : resolveFresh net st s dom = (.error e, st₁)) :
    st₁.cache = st.cache := by
  unfold resolveFresh at h
  split at h
  · obtain ⟨-, hst⟩ := Prod.mk.injEq .. ▸ h; subst hst; rfl
  split at h
  · obtain ⟨-, hst⟩ := Prod.mk.injEq .. ▸ h; subst hst; rfl
  split at h
  · obtain ⟨-, hst⟩ := Prod.mk.injEq .. ▸ h; subst hst; rfl
  split at h
  · obtain ⟨-, hst⟩ := Prod.mk.injEq .. ▸ h; subst hst; rfl
  split at h
  · obtain ⟨-, hst⟩ := Prod.mk.injEq .. ▸ h; subst hst; rfl
  split at h
  · obtain ⟨-, hst⟩ := Prod.mk.injEq .. ▸ h; subst hst; rfl
  · simp at h

theorem resolveFresh_special (net : Query → Option (List String)) (st : ResolveState)
    (s dom : String) (h : specialSpec s = true) :
    ∃ r, resolveFresh net st s dom = (.error (.invalidSpec r), st) := by
  by_cases h1 : pyStartsWith s "rcode://" = true
  · exact ⟨"rcode", by simp [resolveFresh, h1]⟩
  · have h1' : pyStartsWith s "rcode://" = false := by simpa using h1
    have h2 : (pyStartsWith s "system://" || s == "system" || pyStartsWith s "dhcp://") = true := by
      unfold specialSpec at h
      simpa [h1'] using h
    exact ⟨"system/dhcp", by simp [resolveFresh, h1', h2]⟩

theorem goodCache_resolveFresh (net : Query → Option (List String)) (st : ResolveState)
    (s dom : String) (h : GoodCache st.cache) :
    GoodCache (resolveFresh net st s dom).2.cache := by
  unfold resolveFresh
  split
  · exact h
  split
  · exact h
  · rename_i h1 h2
    have hsp : specialSpec s = false := by
      unfold specialSpec
      simp only [Bool.or_eq_true, not_or] at h1 h2
      simp [h1, h2]
    split
    · exact h
    split
    · exact h
    split
    · exact h
    split
    · exact h
    · intro k v hk
      rcases lookupCache_append_elim _ _ _ _ _ hk with hk' | rfl
      · exact h _ _ hk'
      · exact hsp

theorem goodCache_resolve (net : Query → Option (List String)) (st : ResolveState)
    (spec dom : String) (h : GoodCache st.cache) :
    GoodCache (resolve_ipv4 net st spec dom).2.cache := by
  unfold resolve_ipv4
  split
  · exact h
  · exact goodCache_resolveFresh _ _ _ _ h

theorem reachable_goodCache (st : ResolveState) (h : Reachable st) : GoodCache st.cache := by
  induction h with
  | init => intro k v hk; simp [lookupCache] at hk
  | step net st' spec dom _ ih => exact goodCache_resolve net st' spec dom ih

theorem resolve_ok_lookup (net : Query → Option (List String)) (st : ResolveState)
    (spec dom : String) (l : List String) (st₁ : ResolveState)
    (h : resolve_ipv4 net st spec dom = (.ok l, st₁)) :
    lookupCache st₁.cache (normalizeSpec spec, dom) = some l := by
  unfold resolve_ipv4 at h
  cases hc : lookupCache st.cache (normalizeSpec spec, dom) with
  | some v =>
    rw [hc] at h
    obtain ⟨hl, hst⟩ := Prod.mk.injEq .. ▸ h
    obtain rfl : v = l := by simpa using hl
    subst hst
    exact hc
  | none =>
    rw [hc] at h
    obtain ⟨hcache, -⟩ := resolveFresh_ok_state _ _ _ _ _ _ h
    rw [hcache]
    exact lookupCache_append_self _ _ _ hc

theorem resolve_ok_log (net : Query → Option (List String)) (st : ResolveState)
    (spec dom : String) (l : List String) (st₁ : ResolveState)
    (h : resolve_ipv4 net st spec dom = (.ok l, st₁)) :
    st₁.log.length ≤ st.log.length + 1 := by
  unfold resolve_ipv4 at h
  cases hc : lookupCache st.cache (normalizeSpec spec, dom) with
  | some v =>
    rw [hc] at h
    obtain ⟨-, hst⟩ := Prod.mk.injEq .. ▸ h
    subst hst
    omega
  | none =>
    rw [hc] at h
    obtain ⟨-, q, hlog⟩ := resolveFresh_ok_state _ _ _ _ _ _ h
    simp [hlog]

theorem getField_setField_same (p : Proxy) (k : String) (v : YVal) :
    getField (setField p k v) k = some v := by
  induction p with
  | nil => simp [setField, getField]
  | cons kv rest ih =>
    obtain ⟨k', v'⟩ := kv
    by_cases hk : k' = k
    · simp [setField, getField, hk]
    · simp [setField, getField, hk, ih]

theorem getField_setField_ne (p : Proxy) (k k' : String) (v : YVal) (h : k' ≠ k) :
    getField (setField p k v) k' = getField p k' := by
  induction p with
  | nil => simp [setField, getField, Ne.symm h]
  | cons kv rest ih =>
    obtain ⟨k₀, v₀⟩ := kv
    by_cases hk : k₀ = k
    · subst hk
      simp [setField, getField, Ne.symm h]
    · simp [setField, getField, hk, ih]

/-! ### Claims -/

/-- C1 counterexample: the claim says both `.example.com` and
`+.example.com` translate to a glob equivalent to `*.example.com`,
matching `example.com` and not `notexample.com`.  In the code
`.example.com` translates to `*example.com`, which matches
`notexample.com`; and the `+.example.com` translation `*.example.com`
does not match the base domain `example.com`. -/
theorem c1_counterexample_dot_translation :
    translatePattern ".example.com" = "*example.com" ∧
    fnmatch "notexample.com" (translatePattern ".example.com") = true ∧
    fnmatch "example.com" (translatePattern "+.example.com") = false := by
  decide

/-- C1 (amended): a pattern beginning with `+.` or `.` has exactly its
first character stripped and `*` prepended: `+.example.com` becomes
`*.example.com`, which matches subdomains at any depth but not the base
domain; `.example.com` becomes `*example.com`, which matches the base
domain and all subdomains but also any hostname merely ending in
`example.com`, such as `notexample.com`. -/
theorem c1_amended_translation (pattern : String)
    (h : (pyStartsWith pattern "+." || pyStartsWith pattern ".") = true) :
    translatePattern pattern = "*" ++ pattern.drop 1 ∧
    translatePattern "+.example.com" = "*.example.com" ∧
    translatePattern ".example.com" = "*example.com" ∧
    fnmatch "a.example.com" "*.example.com" = true ∧
    fnmatch "example.com" "*.example.com" = false ∧
    fnmatch "a.example.com" "*example.com" = true ∧
    fnmatch "example.com" "*example.com" = true ∧
    fnmatch "notexample.com" "*example.com" = true := by
  refine ⟨?_, by decide, by decide, by decide, by decide, by decide, by decide, by decide⟩
  simp [translatePattern, h]

/-- C1 witness: the amended translation evaluated at `+.example.com`. -/
theorem c1_witness :
    translatePattern "+.example.com" = "*" ++ ("+.example.com".drop 1) ∧
    fnmatch "example.com" "*.example.com" = false :=
  ⟨(c1_amended_translation "+.example.com" (by decide)).1,
   (c1_amended_translation "+.example.com" (by decide)).2.2.2.2.1⟩

/-- C2: the claim says a `tls://` spec with no explicit port issues its
query to port 853.  In the code the URL-parse branch already defaults a
missing port to 53 (`parsed.port or 53`), so the tls branch's
`port or 853` never fires: `tls://1.1.1.1` is queried on port 53.  The
udp/tcp/quic half of the claim (default port 53) does hold, as the
remaining conjuncts show. -/
theorem c2_tls_portless_query_uses_port_53 :
    (resolve_ipv4 netOne st0 "tls://1.1.1.1" "example.com").2.log =
      [.tls "1.1.1.1" 53 "example.com"] ∧
    (resolve_ipv4 netOne st0 "8.8.8.8" "d").2.log = [.udp "8.8.8.8" 53 "d"] ∧
    (resolve_ipv4 netOne st0 "tcp://8.8.8.8" "d").2.log = [.tcp "8.8.8.8" 53 "d"] ∧
    (resolve_ipv4 netOne st0 "quic://8.8.8.8" "d").2.log = [.quic "8.8.8.8" 53 "d"] := by
  decide

/-- C5 counterexample: the claim says two successive resolve calls on
the same (spec, domain) issue at most one network query in total.  When
the first call fails (here: transport failure), nothing is cached and
the second call queries the network again: two queries in total. -/
theorem c5_counterexample_failure_not_cached :
    (resolve_ipv4 netFail st0 "1.2.3.4" "d").2.log.length = 1 ∧
    (resolve_ipv4 netFail (resolve_ipv4 netFail st0 "1.2.3.4" "d").2 "1.2.3.4" "d").2.log.length
      = 2 := by
  decide

/-- C5 (amended): when the first resolve call returns successfully, it
issued at most one network query, and a second call on the same
(spec, domain) pair hits the cache: it issues no network query
(its result does not depend on the oracle `net₂` and the state is
returned unchanged) and returns the identical address list. -/
theorem c5_amended_cache_idempotent_on_success
    (net net₂ : Query → Option (List String)) (st : ResolveState)
    (spec dom : String) (l : List String) (st₁ : ResolveState)
    (h : resolve_ipv4 net st spec dom = (.ok l, st₁)) :
    st₁.log.length ≤ st.log.length + 1 ∧
    resolve_ipv4 net₂ st₁ spec dom = (.ok l, st₁) := by
  refine ⟨resolve_ok_log net st spec dom l st₁ h, ?_⟩
  have hkey := resolve_ok_lookup net st spec dom l st₁ h
  unfold resolve_ipv4
  rw [hkey]

/-- C5 witness: a successful resolution of `8.8.8.8` for `d` followed by
a second call against an oracle that fails every query: the second call
still returns the same list from the cache. -/
theorem c5_witness :
    stAfter888.log.length ≤ st0.log.length + 1 ∧
    resolve_ipv4 netFail stAfter888 "8.8.8.8" "d" = (.ok ["10.0.0.5"], stAfter888) :=
  c5_amended_cache_idempotent_on_success netOne netFail st0 "8.8.8.8" "d"
    ["10.0.0.5"] stAfter888 (by rfl)

/-- C6: on every reachable resolver state, a spec that normalizes to a
`rcode://`, `system://`, exact `system`, or `dhcp://` form fails with an
invalid-spec error, and the state is returned unchanged — in particular
no query is appended to the log, so no network call occurs. -/
theorem c6_unresolvable_spec_rejected_without_query
    (net : Query → Option (List String)) (st : ResolveState) (spec dom : String)
    (hre : Reachable st) (hsp : specialSpec (normalizeSpec spec) = true) :
    ∃ r, resolve_ipv4 net st spec dom = (.error (.invalidSpec r), st) := by
  have hg := reachable_goodCache st hre
  have hnone : lookupCache st.cache (normalizeSpec spec, dom) = none := by
    cases hc : lookupCache st.cache (normalizeSpec spec, dom) with
    | none => rfl
    | some v =>
      have hfalse := hg _ _ hc
      simp only [hsp] at hfalse
      exact absurd hfalse (by decide)
  unfold resolve_ipv4
  rw [hnone]
  exact resolveFresh_special net st (normalizeSpec spec) dom hsp

/-- C6 witness: `rcode://x` on the initial state. -/
theorem c6_witness :
    ∃ r, resolve_ipv4 netOne st0 "rcode://x" "d" = (.error (.invalidSpec r), st0) :=
  c6_unresolvable_spec_rejected_without_query netOne st0 "rcode://x" "d"
    Reachable.init (by decide)

/-- C7: when the first policy entry's translated pattern glob-matches
the hostname, its server spec is selected no matter what the remaining
entries are (so later patterns are never consulted); concretely, with
policy `{"*.a.com": "S1", "sub.a.com": "S2"}` in that order, hostname
`sub.a.com` selects `S1`, and a driver run on that policy issues its
resolution against spec `S1` (normalized `s1`), not `S2`. -/
theorem c7_first_match_wins (pattern d server : String) (rest : List (String × String))
    (h : fnmatch server (translatePattern pattern) = true) :
    findMatch ((pattern, d) :: rest) server = some d ∧
    findMatch [("*.a.com", "S1"), ("sub.a.com", "S2")] "sub.a.com" = some "S1" ∧
    (replace_pxydom_ip netOne st0
        ⟨true, some [("*.a.com", "S1"), ("sub.a.com", "S2")],
         some [[("server", YVal.str "sub.a.com")]]⟩).2.log =
      [.udp "s1" 53 "sub.a.com"] := by
  refine ⟨?_, by decide, by decide⟩
  simp [findMatch, h]

/-- C7 witness: the first-match selection at the concrete policy. -/
theorem c7_witness :
    findMatch [("*.a.com", "S1"), ("sub.a.com", "S2")] "sub.a.com" = some "S1" :=
  (c7_first_match_wins "*.a.com" "S1" "sub.a.com" [("sub.a.com", "S2")] (by decide)).1

/-- C3 counterexample: the claim says a matched proxy whose resolution
yields zero IPv4 addresses is left unmodified and processing continues
without error.  In the code `resolve_ipv4` raises on an empty answer
section before ever returning, so the driver aborts the whole run with
a wrapped error instead of skipping: here the first proxy matches
`.example.com`, the oracle answers every query with zero A records, and
the driver returns an error (the second proxy is never reached). -/
theorem c3_counterexample_zero_answers_abort :
    (replace_pxydom_ip netEmptyAns st0 ⟨true, some policyEx, some [proxyNode, proxyOther]⟩).1 =
      .error (.replaceFailed (.queryFailed "node.example.com" "udp://9.9.9.9" "no-a-records")) := by
  rfl

/-- C3 (amended): a matched resolution that finds zero A records makes
the resolver raise, and the driver wraps that into a fatal error: the
whole operation aborts (for every set of extra fields on the failing
proxy and every list of remaining proxies), rather than skipping the
entry; the driver's own empty-list skip branch is unreachable because
the resolver never returns an empty list. -/
theorem c3_amended_zero_answers_fatal (extra : Proxy) (rest : List Proxy) :
    (replace_pxydom_ip netEmptyAns st0
        ⟨true, some policyEx, some ((("server", YVal.str "node.example.com") :: extra) :: rest)⟩).1 =
      .error (.replaceFailed (.queryFailed "node.example.com" "udp://9.9.9.9" "no-a-records")) := by
  have hres : resolve_ipv4 netEmptyAns st0 "udp://9.9.9.9" "node.example.com" =
      (.error (.queryFailed "node.example.com" "udp://9.9.9.9" "no-a-records"),
       ⟨[], [.udp "9.9.9.9" 53 "node.example.com"]⟩) := by rfl
  have hfm : findMatch policyEx "node.example.com" = some "udp://9.9.9.9" := by rfl
  have hfa : falsyV (YVal.str "node.example.com") = false := by rfl
  have hd : ¬("udp://9.9.9.9" = "") := by decide
  have hstep : stepProxy netEmptyAns policyEx st0
      (("server", YVal.str "node.example.com") :: extra) =
      (.error (.replaceFailed (.queryFailed "node.example.com" "udp://9.9.9.9" "no-a-records")),
       ⟨[], [.udp "9.9.9.9" 53 "node.example.com"]⟩) := by
    simp [stepProxy, getField, hfa, hfm, hd, hres]
  simp [replace_pxydom_ip, processProxies, hstep]

/-- C4: once a policy-matched, non-falsy server spec reaches the
resolver and the resolver raises (resolution failure or invalid spec),
the error is wrapped and the whole batch aborts — the result does not
depend on the remaining proxies, so none of them is examined or
modified; a proxy whose hostname matches no policy pattern is instead
passed through unchanged and processing of the rest continues. -/
theorem c4_matched_failure_aborts_unmatched_skipped
    (net : Query → Option (List String)) (policy : List (String × String))
    (st : ResolveState) (p : Proxy) (rest : List Proxy) (s : String)
    (hs : getField p "server" = some (.str s)) (hne : s ≠ "") :
    (∀ d e st₁, findMatch policy s = some d → d ≠ "" →
        resolve_ipv4 net st d s = (.error e, st₁) →
        processProxies net policy st (p :: rest) = (.error (.replaceFailed e), st₁)) ∧
    (findMatch policy s = none →
        processProxies net policy st (p :: rest) =
          (Prod.map (Except.map fun ps => p :: ps) id) (processProxies net policy st rest)) := by
  have hfa : falsyV (.str s) = false := by simp [falsyV, hne]
  constructor
  · intro d e st₁ hm hd hr
    have hstep : stepProxy net policy st p = (.error (.replaceFailed e), st₁) := by
      simp [stepProxy, hs, hfa, hm, hd, hr]
    simp [processProxies, hstep]
  · intro hm
    have hstep : stepProxy net policy st p = (.ok p, st) := by
      simp [stepProxy, hs, hfa, hm]
    cases hrec : processProxies net policy st rest with
    | mk r st₂ =>
      cases r with
      | ok ps => simp [processProxies, hstep, hrec, Prod.map, Except.map]
      | error e => simp [processProxies, hstep, hrec, Prod.map, Except.map]

/-- C4 witness: a proxy matching `.example.com` whose policy points at
the invalid spec `rcode://x` aborts the two-proxy batch; the same proxy
against a non-matching policy is skipped and the rest processed. -/
theorem c4_witness :
    processProxies netOne [(".example.com", "rcode://x")] st0 [proxyNode, proxyOther] =
      (.error (.replaceFailed (.invalidSpec "rcode")), st0) ∧
    processProxies netOne [("zz.invalid", "S")] st0 [proxyNode] =
      (Prod.map (Except.map fun ps => proxyNode :: ps) id)
        (processProxies netOne [("zz.invalid", "S")] st0 []) := by
  refine ⟨?_, ?_⟩
  · exact (c4_matched_failure_aborts_unmatched_skipped netOne [(".example.com", "rcode://x")]
      st0 proxyNode [proxyOther] "node.example.com" (by rfl) (by decide)).1
      "rcode://x" (.invalidSpec "rcode") st0 (by rfl) (by decide) (by rfl)
  · exact (c4_matched_failure_aborts_unmatched_skipped netOne [("zz.invalid", "S")]
      st0 proxyNode [] "node.example.com" (by rfl) (by decide)).2 (by rfl)

/-- C8: a document whose `dns` key is absent or whose `dns` mapping
lacks `nameserver-policy` fails with the missing-policy error, and a
document whose `proxies` is absent (or not a list) fails as well — in
both cases the resolver state is returned unchanged, so no resolution
was attempted and no proxy entry was inspected or modified. -/
theorem c8_missing_policy_or_proxies_fatal
    (net : Query → Option (List String)) (st : ResolveState) (doc : Doc) :
    ((!doc.dnsPresent || doc.nsPolicy.isNone) = true →
        replace_pxydom_ip net st doc = (.error .missingPolicy, st)) ∧
    (doc.proxies = none → ∃ e, replace_pxydom_ip net st doc = (.error e, st)) := by
  constructor
  · intro h
    simp [replace_pxydom_ip, h]
  · intro h
    by_cases h1 : (!doc.dnsPresent || doc.nsPolicy.isNone) = true
    · exact ⟨.missingPolicy, by simp [replace_pxydom_ip, h1]⟩
    · have h1' : (!doc.dnsPresent || doc.nsPolicy.isNone) = false := by
        cases hcond : (!doc.dnsPresent || doc.nsPolicy.isNone) with
        | true => exact absurd hcond h1
        | false => rfl
      have hcomp : doc.dnsPresent = true ∧ doc.nsPolicy.isSome = true := by simpa using h1'
      refine ⟨.missingProxies, ?_⟩
      cases hnp : doc.nsPolicy with
      | none => rw [hnp] at hcomp; simp at hcomp
      | some policy => simp [replace_pxydom_ip, h1', hnp, h, hcomp.1]

/-- C8 witness: a document with `dns` but no `nameserver-policy`, and a
document with a policy but no `proxies` list. -/
theorem c8_witness :
    replace_pxydom_ip netOne st0 ⟨true, none, some []⟩ = (.error .missingPolicy, st0) ∧
    ∃ e, replace_pxydom_ip netOne st0 ⟨true, some policyEx, none⟩ = (.error e, st0) :=
  ⟨(c8_missing_policy_or_proxies_fatal netOne st0 ⟨true, none, some []⟩).1 (by rfl),
   (c8_missing_policy_or_proxies_fatal netOne st0 ⟨true, some policyEx, none⟩).2 (by rfl)⟩

/-- C9: when the resolver succeeds for a matched proxy, exactly the
`server` field is replaced with the first returned address (further
addresses are ignored), every other field of that proxy keeps its value,
and the rest of the batch is processed exactly as it would be on its
own (this step touches no other proxy entry). -/
theorem c9_success_replaces_only_server
    (net : Query → Option (List String)) (policy : List (String × String))
    (st : ResolveState) (p : Proxy) (rest : List Proxy) (s d ip : String)
    (tl : List String) (st₁ : ResolveState)
    (hs : getField p "server" = some (.str s)) (hne : s ≠ "")
    (hm : findMatch policy s = some d) (hd : d ≠ "")
    (hr : resolve_ipv4 net st d s = (.ok (ip :: tl), st₁)) :
    processProxies net policy st (p :: rest) =
      (Prod.map (Except.map fun ps => setField p "server" (.str ip) :: ps) id)
        (processProxies net policy st₁ rest) ∧
    getField (setField p "server" (.str ip)) "server" = some (.str ip) ∧
    (∀ k, k ≠ "server" → getField (setField p "server" (.str ip)) k = getField p k) := by
  have hfa : falsyV (.str s) = false := by simp [falsyV, hne]
  have hstep : stepProxy net policy st p = (.ok (setField p "server" (.str ip)), st₁) := by
    simp [stepProxy, hs, hfa, hm, hd, hr]
  refine ⟨?_, getField_setField_same p "server" (.str ip),
    fun k hk => getField_setField_ne p "server" k (.str ip) hk⟩
  cases hrec : processProxies net policy st₁ rest with
  | mk r st₂ =>
    cases r with
    | ok ps => simp [processProxies, hstep, hrec, Prod.map, Except.map]
    | error e => simp [processProxies, hstep, hrec, Prod.map, Except.map]

/-- C9 witness: the sample proxy resolved through the sample policy gets
its `server` replaced by `10.0.0.5` while its `type` field survives. -/
theorem c9_witness :
    processProxies netOne policyEx st0 [proxyNode] =
      (Prod.map (Except.map fun ps => setField proxyNode "server" (.str "10.0.0.5") :: ps) id)
        (processProxies netOne policyEx stAfterNode []) ∧
    getField (setField proxyNode "server" (.str "10.0.0.5")) "server" =
      some (.str "10.0.0.5") ∧
    getField (setField proxyNode "server" (.str "10.0.0.5")) "type" = getField proxyNode "type" := by
  have h := c9_success_replaces_only_server netOne policyEx st0 proxyNode [] "node.example.com"
    "udp://9.9.9.9" "10.0.0.5" [] stAfterNode (by rfl) (by decide) (by rfl) (by decide) (by rfl)
  exact ⟨h.1, h.2.1, h.2.2 "type" (by decide)⟩

/-- C10: a proxy whose `server` field holds a falsy value (empty string,
zero, `False`, `None`) is treated exactly like one with no `server`
field at all: the step returns the entry and the state unchanged (so no
pattern matching and no resolution happened), and the batch continues
with the remaining proxies. -/
theorem c10_falsy_server_like_missing
    (net : Query → Option (List String)) (policy : List (String × String))
    (st : ResolveState) (p : Proxy) (rest : List Proxy) (v : YVal)
    (hv : getField p "server" = some v) (hf : falsyV v = true) :
    stepProxy net policy st p = (.ok p, st) ∧
    (∀ q : Proxy, getField q "server" = none → stepProxy net policy st q = (.ok q, st)) ∧
    processProxies net policy st (p :: rest) =
      (Prod.map (Except.map fun ps => p :: ps) id) (processProxies net policy st rest) := by
  have hstep : stepProxy net policy st p = (.ok p, st) := by
    simp [stepProxy, hv, hf]
  refine ⟨hstep, ?_, ?_⟩
  · intro q hq
    simp [stepProxy, hq]
  · cases hrec : processProxies net policy st rest with
    | mk r st₂ =>
      cases r with
      | ok ps => simp [processProxies, hstep, hrec, Prod.map, Except.map]
      | error e => simp [processProxies, hstep, hrec, Prod.map, Except.map]

/-- C10 witness: an empty-string `server` is skipped exactly like a
missing one. -/
theorem c10_witness :
    stepProxy netOne policyEx st0 proxyEmptyServer = (.ok proxyEmptyServer, st0) ∧
    stepProxy netOne policyEx st0 proxyNoServer = (.ok proxyNoServer, st0) ∧
    processProxies netOne policyEx st0 [proxyEmptyServer] =
      (Prod.map (Except.map fun ps => proxyEmptyServer :: ps) id)
        (processProxies netOne policyEx st0 []) := by
  have h := c10_falsy_server_like_missing netOne policyEx st0 proxyEmptyServer []
    (YVal.str "") (by rfl) (by rfl)
  exact ⟨h.1, h.2.1 proxyNoServer (by rfl), h.2.2⟩

end AntiSubscribeProtect
